import Mathlib

/-!
A shallow embedding of the decision pipeline of the hunt-commander
repository — agents/matcher_agent.py, agents/critique_agent.py and
agents/negotiation_agent.py — together with theorems settling the frozen
claims about it.

Modelling conventions:
* Python strings are modelled as `List Char`; `str.lower()` / `str.upper()`
  map `Char.toLower` / `Char.toUpper` (ASCII case folding).
* Python numbers (`int` and `float`) are modelled as exact rationals `ℚ`;
  `int(x)` is truncation toward zero and `round(x, 2)` is
  round-half-to-even at two decimals — the exact-arithmetic reading of the
  Python builtins.
* Python dicts with a fixed key set are Lean structures; `d.get(k, v)` on a
  possibly-absent key is an `Option` field read with default `v`.
* f-strings whose payload is a number that Python would comma-format are
  modelled as constructors of an explicit message type carrying the number.
-/

namespace HC

/-! ## Definitions: the embedded pipeline -/

/-- The whitespace characters removed by Python `str.strip()` (ASCII part). -/
def isPyWs (c : Char) : Bool :=
  c = ' ' || c = '\t' || c = '\n' || c = '\r' || c = Char.ofNat 11 || c = Char.ofNat 12

/-- Python `s.strip()`. -/
def pyStrip (s : List Char) : List Char :=
  ((s.dropWhile isPyWs).reverse.dropWhile isPyWs).reverse

/-- Python `s.lower()` (ASCII case folding). -/
def lowerL (s : List Char) : List Char := s.map Char.toLower

/-- Python `s.upper()` (ASCII case folding). -/
def upperL (s : List Char) : List Char := s.map Char.toUpper

/-- `leadMatch n h` holds when `n` is an initial segment of `h`. -/
def leadMatch : List Char → List Char → Bool
  | [], _ => true
  | _ :: _, [] => false
  | a :: as, b :: bs => a == b && leadMatch as bs

/-- Python `n in h` — substring containment. -/
def isSub : List Char → List Char → Bool
  | n, [] => n.isEmpty
  | n, c :: h => leadMatch n (c :: h) || isSub n h

/-- Python `s.startswith(p)`. -/
def startsWithL (s p : List Char) : Bool := leadMatch p s

/-- Python `s.replace(pat, '')`: delete every leftmost non-overlapping
occurrence of `pat` (Python replaces nothing when `pat` is empty and the
replacement is empty). -/
def removeAll (pat : List Char) : List Char → List Char
  | [] => []
  | c :: rest =>
    if leadMatch pat (c :: rest) && !pat.isEmpty then
      removeAll pat (rest.drop (pat.length - 1))
    else
      c :: removeAll pat rest
termination_by l => l.length
decreasing_by
  · simp only [List.length_drop, List.length_cons]; omega
  · simp only [List.length_cons]; omega

/-- Python `s.split('\n')`. -/
def splitLines : List Char → List (List Char)
  | [] => [[]]
  | c :: rest =>
    if c = '\n' then [] :: splitLines rest
    else
      match splitLines rest with
      | l :: ls => (c :: l) :: ls
      | [] => [[c]]

/-- `int()` of a digit run. -/
def digitsToNat (ds : List Char) : ℕ :=
  ds.foldl (fun a c => 10 * a + (c.toNat - 48)) 0

/-- The maximal nonempty digit run after a decimal dot, read as the
fraction it writes. -/
def fracOf (rest : List Char) : Option ℚ :=
  let ds := rest.takeWhile Char.isDigit
  if ds.isEmpty then none else some ((digitsToNat ds : ℚ) / 10 ^ ds.length)

/-- Value of the regex alternative `0?\.\d+` when it matches at the head of
the input: an optional `0`, a dot, then a maximal nonempty digit run. -/
def matchFrac : List Char → Option ℚ
  | '0' :: '.' :: rest => fracOf rest
  | '.' :: rest => fracOf rest
  | _ => none

/-- The regex alternative `1\.0` at the head of the input. -/
def matchOnePointZero : List Char → Option ℚ
  | '1' :: '.' :: '0' :: _ => some 1
  | _ => none

/-- Python `re.search(r'0?\.\d+|1\.0', s)`, returning the numeric value of
the leftmost match: both alternatives are tried at each position, scanning
left to right. -/
def searchScore : List Char → Option ℚ
  | [] => none
  | c :: rest =>
    match matchFrac (c :: rest) with
    | some q => some q
    | none =>
      match matchOnePointZero (c :: rest) with
      | some q => some q
      | none => searchScore rest

/-- Result dict of `MatcherAgent._parse_ai_response`. -/
structure MatchResult where
  score : ℚ
  reasons : List String
  missing_skills : List String
deriving DecidableEq

/-- The `current_section` values of the matcher parser. -/
inductive MatchSection
  | reasons
  | missingSkills
deriving DecidableEq

/-- Loop state of `_parse_ai_response`: the result dict plus `current_section`. -/
structure MatchParseState where
  result : MatchResult
  current : Option MatchSection
deriving DecidableEq

/-- One iteration of the line loop of `MatcherAgent._parse_ai_response`. -/
def matchParseStep (st : MatchParseState) (raw : List Char) : MatchParseState :=
  let line := pyStrip raw
  if startsWithL line "SCORE:".data then
    match searchScore (pyStrip (removeAll "SCORE:".data line)) with
    | some q => { st with result := { st.result with score := q } }
    | none => st
  else if startsWithL line "REASONS:".data then
    { st with current := some MatchSection.reasons }
  else if startsWithL line "MISSING_SKILLS:".data then
    { st with current := some MatchSection.missingSkills }
  else if startsWithL line "- ".data && st.current.isSome then
    let item := pyStrip (line.drop 2)
    if item.isEmpty then st
    else
      match st.current with
      | some MatchSection.reasons =>
        { st with result :=
            { st.result with reasons := st.result.reasons ++ [String.mk item] } }
      | some MatchSection.missingSkills =>
        { st with result :=
            { st.result with missing_skills := st.result.missing_skills ++ [String.mk item] } }
      | none => st
  else st

/-- The all-default initial state of the matcher parser. -/
def matchInitState : MatchParseState :=
  { result := { score := 0, reasons := [], missing_skills := [] }, current := none }

/-- `MatcherAgent._parse_ai_response`: fold the line loop over
`response_text.strip().split('\n')`, starting from the all-default record. -/
def parseAiResponse (text : List Char) : MatchResult :=
  ((splitLines (pyStrip text)).foldl matchParseStep matchInitState).result

/-- A line the matcher parser acts on: one of its `LABEL:` prefixes, or a
`- ` bullet while a list section is open. -/
def matchRecognized (st : MatchParseState) (raw : List Char) : Bool :=
  let line := pyStrip raw
  startsWithL line "SCORE:".data || startsWithL line "REASONS:".data ||
    startsWithL line "MISSING_SKILLS:".data ||
    (startsWithL line "- ".data && st.current.isSome)

/-- Result dict of `CritiqueAgent._parse_critique_response` (the
AssessmentRecord of the validation path). -/
structure CritiqueResult where
  approved : Bool
  score : ℚ
  rejection_reason : String
  feedback : List String
  red_flags : List String
  strengths : List String
deriving DecidableEq

/-- The `current_section` values of the critique parser. -/
inductive CritiqueSection
  | feedback
  | redFlags
  | strengths
deriving DecidableEq

/-- Loop state of `_parse_critique_response`. -/
structure CritiqueParseState where
  result : CritiqueResult
  current : Option CritiqueSection
deriving DecidableEq

/-- One iteration of the line loop of `CritiqueAgent._parse_critique_response`. -/
def critiqueParseStep (st : CritiqueParseState) (raw : List Char) : CritiqueParseState :=
  let line := pyStrip raw
  if startsWithL line "APPROVED:".data then
    let t := upperL (pyStrip (removeAll "APPROVED:".data line))
    { st with result := { st.result with
        approved := t == "YES".data || t == "TRUE".data || t == "APPROVE".data } }
  else if startsWithL line "SCORE:".data then
    match searchScore (pyStrip (removeAll "SCORE:".data line)) with
    | some q => { st with result := { st.result with score := q } }
    | none => st
  else if startsWithL line "REJECTION_REASON:".data then
    { st with result := { st.result with
        rejection_reason := String.mk (pyStrip (removeAll "REJECTION_REASON:".data line)) } }
  else if startsWithL line "FEEDBACK:".data then
    { st with current := some CritiqueSection.feedback }
  else if startsWithL line "RED_FLAGS:".data then
    { st with current := some CritiqueSection.redFlags }
  else if startsWithL line "STRENGTHS:".data then
    { st with current := some CritiqueSection.strengths }
  else if startsWithL line "- ".data && st.current.isSome then
    let item := pyStrip (line.drop 2)
    if item.isEmpty then st
    else
      match st.current with
      | some CritiqueSection.feedback =>
        { st with result :=
            { st.result with feedback := st.result.feedback ++ [String.mk item] } }
      | some CritiqueSection.redFlags =>
        { st with result :=
            { st.result with red_flags := st.result.red_flags ++ [String.mk item] } }
      | some CritiqueSection.strengths =>
        { st with result :=
            { st.result with strengths := st.result.strengths ++ [String.mk item] } }
      | none => st
  else st

/-- The all-default initial state of the critique parser. -/
def critiqueInitState : CritiqueParseState :=
  { result := { approved := false, score := 0, rejection_reason := "",
                feedback := [], red_flags := [], strengths := [] },
    current := none }

/-- `CritiqueAgent._parse_critique_response`. -/
def parseCritiqueResponse (text : List Char) : CritiqueResult :=
  ((splitLines (pyStrip text)).foldl critiqueParseStep critiqueInitState).result

/-- A line the critique parser acts on. -/
def critiqueRecognized (st : CritiqueParseState) (raw : List Char) : Bool :=
  let line := pyStrip raw
  startsWithL line "APPROVED:".data || startsWithL line "SCORE:".data ||
    startsWithL line "REJECTION_REASON:".data || startsWithL line "FEEDBACK:".data ||
    startsWithL line "RED_FLAGS:".data || startsWithL line "STRENGTHS:".data ||
    (startsWithL line "- ".data && st.current.isSome)

/-- Round half to even to an integer — Python `round` semantics read over
exact rationals. -/
def roundHE (q : ℚ) : ℤ :=
  if q - ⌊q⌋ < 1/2 then ⌊q⌋
  else if 1/2 < q - ⌊q⌋ then ⌊q⌋ + 1
  else if ⌊q⌋ % 2 = 0 then ⌊q⌋ else ⌊q⌋ + 1

/-- Python `round(x, 2)` over exact rationals. -/
def pyRound2 (q : ℚ) : ℚ := (roundHE (q * 100) : ℚ) / 100

/-- Python `int(x)`: truncation toward zero. -/
def pyInt (q : ℚ) : ℤ := Int.tdiv q.num q.den

/-- `int(x)` kept in the rational world. -/
def pyIntQ (q : ℚ) : ℚ := (pyInt q : ℚ)

/-- Rational division, written so the kernel can evaluate it (Batteries
marks `Rat.inv` irreducible, which blocks evaluating `/` on `ℚ`); equal to
`/` by `qdiv_eq`. -/
def qdiv (a b : ℚ) : ℚ := Rat.divInt (a.num * b.den) (a.den * b.num)

/-- Kernel-computable rational addition (see `qdiv`); equal to `+`. -/
def qadd (a b : ℚ) : ℚ := Rat.divInt (a.num * b.den + b.num * a.den) ((a.den : ℤ) * b.den)

/-- Kernel-computable rational subtraction (see `qdiv`); equal to `-`. -/
def qsub (a b : ℚ) : ℚ := Rat.divInt (a.num * b.den - b.num * a.den) ((a.den : ℤ) * b.den)

/-- Kernel-computable rational multiplication (see `qdiv`); equal to `*`. -/
def qmul (a b : ℚ) : ℚ := Rat.divInt (a.num * b.num) ((a.den : ℤ) * b.den)

/-- A job dict. A key the scraped dict may lack is an `Option` field; each
read site applies the default of the corresponding Python `.get` call. -/
structure Job where
  title : Option String := none
  company : Option String := none
  location : Option String := none
  description : Option String := none
  requirements : Option String := none
  full_description : Option String := none
  salary : Option String := none
  company_size : Option String := none
  match_score : Option ℚ := none
  match_reasons : Option (List String) := none
  missing_skills : Option (List String) := none
deriving DecidableEq

/-- The preferences dict as read by the matcher fallback. -/
structure Preferences where
  job_titles : List String := []
  locations : List String := []
  required_skills : List String := []
  preferred_skills : List String := []
  min_salary : Option ℚ := none
deriving DecidableEq

/-- Python truthiness of an optional number (`None` and `0` are falsy). -/
def numTruthy : Option ℚ → Bool
  | none => false
  | some q => q != 0

/-- Python truthiness of an optional string (`None` and `''` are falsy). -/
def strTruthy : Option String → Bool
  | none => false
  | some s => !s.isEmpty

/-- The combined lowercased job text of `_rule_based_match`:
`f"{title} {description} {requirements} {full_description}".lower()`. -/
def jobText (job : Job) : List Char :=
  lowerL ((job.title.getD "").data ++ ' ' :: (job.description.getD "").data ++
    ' ' :: (job.requirements.getD "").data ++ ' ' :: (job.full_description.getD "").data)

/-- Some preferred title occurs case-insensitively inside the job title. -/
def titleMatchB (job : Job) (prefs : Preferences) : Bool :=
  prefs.job_titles.any fun t => isSub (lowerL t.data) (lowerL (job.title.getD "").data)

/-- Some preferred location occurs case-insensitively inside the job location. -/
def locationMatchB (job : Job) (prefs : Preferences) : Bool :=
  prefs.locations.any fun l => isSub (lowerL l.data) (lowerL (job.location.getD "").data)

/-- Number of required skills found in the combined job text. -/
def matchedRequired (job : Job) (prefs : Preferences) : ℕ :=
  prefs.required_skills.countP fun sk => isSub (lowerL sk.data) (jobText job)

/-- Number of preferred skills found in the combined job text. -/
def matchedPreferred (job : Job) (prefs : Preferences) : ℕ :=
  prefs.preferred_skills.countP fun sk => isSub (lowerL sk.data) (jobText job)

/-- Reason string built for a partial required-skill match. -/
def requiredReason (m n : ℕ) : String :=
  "Matches " ++ toString m ++ "/" ++ toString n ++ " required skills"

/-- Reason string built for a partial preferred-skill match. -/
def preferredReason (m n : ℕ) : String :=
  "Matches " ++ toString m ++ "/" ++ toString n ++ " preferred skills"

/-- `MatcherAgent._rule_based_match`, with the score accumulated in the
source's order (`if required_skills:` nonempty-truthiness branches are
written with `isEmpty` tests, then/else swapped accordingly). -/
def ruleBasedMatch (job : Job) (prefs : Preferences) : MatchResult :=
  let m := matchedRequired job prefs
  let n := prefs.required_skills.length
  let mp := matchedPreferred job prefs
  let np := prefs.preferred_skills.length
  let score1 : ℚ := if titleMatchB job prefs then 0 + 25/100 else 0
  let reasons1 : List String :=
    if titleMatchB job prefs then ["Job title matches preferences"] else []
  let score2 := if locationMatchB job prefs then score1 + 10/100 else score1
  let reasons2 :=
    if locationMatchB job prefs then reasons1 ++ ["Location matches preferences"] else reasons1
  let score3 :=
    if prefs.required_skills.isEmpty then score2 else score2 + 40/100 * ((m : ℚ) / (n : ℚ))
  let reasons3 :=
    if prefs.required_skills.isEmpty then reasons2
    else if 0 < (m : ℚ) / (n : ℚ) then reasons2 ++ [requiredReason m n] else reasons2
  let missing : List String :=
    if prefs.required_skills.isEmpty then []
    else prefs.required_skills.filter fun sk => !isSub (lowerL sk.data) (jobText job)
  let score4 :=
    if prefs.preferred_skills.isEmpty then score3 else score3 + 20/100 * ((mp : ℚ) / (np : ℚ))
  let reasons4 :=
    if prefs.preferred_skills.isEmpty then reasons3
    else if 0 < (mp : ℚ) / (np : ℚ) then reasons3 ++ [preferredReason mp np] else reasons3
  let reasons5 :=
    if numTruthy prefs.min_salary && strTruthy job.salary then
      reasons4 ++ ["Salary information available"]
    else reasons4
  let reasonsFinal := if reasons5.isEmpty then ["No strong matches found"] else reasons5
  { score := pyRound2 score4, reasons := reasonsFinal, missing_skills := missing }

/-- The closed-form score the claim states: sum of the four weighted terms,
an empty skill list contributing exactly 0 to its term. -/
def claimedFallbackScore (job : Job) (prefs : Preferences) : ℚ :=
  (if titleMatchB job prefs then 25/100 else 0) +
  (if locationMatchB job prefs then 10/100 else 0) +
  (if prefs.required_skills.isEmpty then 0
   else 40/100 * (matchedRequired job prefs : ℚ) / prefs.required_skills.length) +
  (if prefs.preferred_skills.isEmpty then 0
   else 20/100 * (matchedPreferred job prefs : ℚ) / prefs.preferred_skills.length)

/-- `min_match_score` default from `config.get('min_match_score', 0.7)`. -/
def defaultMinMatchScore : ℚ := 7/10

/-- Enrichment `MatcherAgent.execute` performs on a job that matched. -/
def enrichJob (job : Job) (m : MatchResult) : Job :=
  { job with match_score := some m.score, match_reasons := some m.reasons,
             missing_skills := some m.missing_skills }

/-- `MatcherAgent.execute`, rule-based fallback path: score each job in
order and keep (enriched) exactly those scoring at least `minScore`. -/
def matcherExecute (minScore : ℚ) (prefs : Preferences) : List Job → List Job
  | [] => []
  | job :: rest =>
    let m := ruleBasedMatch job prefs
    if minScore ≤ m.score then enrichJob job m :: matcherExecute minScore prefs rest
    else matcherExecute minScore prefs rest

/-- The combined lowercased text scanned for red-flag keywords:
`f"{description} {full_description}".lower()`. -/
def critiqueJobText (job : Job) : List Char :=
  lowerL ((job.description.getD "").data ++ ' ' :: (job.full_description.getD "").data)

/-- The fixed red-flag keyword list. -/
def redFlagKeywords : List String :=
  ["unpaid", "no salary", "commission only", "must have car"]

/-- A single-quote character, used by the red-flag message. -/
def squote : String := String.mk [Char.ofNat 39]

/-- The red flag recorded (instead of rejecting) for 4+ missing skills in
non-strict mode: count plus the first three missing skills, comma-joined. -/
def missingSkillsFlag (missing : List String) : String :=
  "Missing " ++ toString missing.length ++ " skills: " ++
    String.intercalate ", " (missing.take 3)

/-- The red flag recorded for a keyword hit in the job text. -/
def keywordFlag (kw : String) : String :=
  "Found potential red flag: " ++ squote ++ kw ++ squote

/-- `CritiqueAgent._rule_based_critique` (`strictMode` is the agent's
`critique_strict_mode` config flag, default false). -/
def ruleBasedCritique (strictMode : Bool) (job : Job) : CritiqueResult :=
  let match_score := job.match_score.getD 0
  let missing := job.missing_skills.getD []
  let approved2 := if match_score < 1/2 then false else true
  let reason2 := if match_score < 1/2 then "Match score too low" else ""
  let approved3 :=
    if 3 < missing.length then (if strictMode then false else approved2) else approved2
  let reason3 :=
    if 3 < missing.length then
      (if strictMode then "Too many missing required skills" else reason2)
    else reason2
  let flags1 : List String :=
    if 3 < missing.length then (if strictMode then [] else [missingSkillsFlag missing]) else []
  let flags :=
    flags1 ++ (redFlagKeywords.filter fun kw => isSub kw.data (critiqueJobText job)).map keywordFlag
  let strengths1 : List String := if (8/10 : ℚ) ≤ match_score then ["Strong match score"] else []
  let strengths2 :=
    if missing.isEmpty then strengths1 ++ ["All required skills matched"] else strengths1
  let strengths3 :=
    if flags.isEmpty then strengths2 ++ ["No obvious red flags detected"] else strengths2
  let feedback :=
    if approved3 then ["Job passes basic validation criteria"] else [reason3]
  { approved := approved3, score := match_score, rejection_reason := reason3,
    feedback := feedback, red_flags := flags, strengths := strengths3 }

/-- One Glassdoor table entry: avg, min, max, p25, p50, p75. -/
structure GdEntry where
  av : ℚ
  mn : ℚ
  mx : ℚ
  p25 : ℚ
  p50 : ℚ
  p75 : ℚ
deriving DecidableEq

/-- Location dict of the Glassdoor sample table for "python developer". -/
def gdPythonDev (l : List Char) : Option GdEntry :=
  if l = "bratislava".data then some ⟨3200, 2400, 4800, 2800, 3200, 3800⟩
  else if l = "kosice".data then some ⟨2600, 2000, 3800, 2300, 2600, 3100⟩
  else if l = "remote".data then some ⟨3500, 2600, 5200, 3000, 3500, 4200⟩
  else none

/-- Location dict for "backend developer". -/
def gdBackendDev (l : List Char) : Option GdEntry :=
  if l = "bratislava".data then some ⟨3400, 2600, 5000, 2900, 3400, 4000⟩
  else if l = "kosice".data then some ⟨2800, 2200, 4000, 2500, 2800, 3300⟩
  else if l = "remote".data then some ⟨3700, 2800, 5400, 3200, 3700, 4400⟩
  else none

/-- Location dict for "fullstack developer". -/
def gdFullstackDev (l : List Char) : Option GdEntry :=
  if l = "bratislava".data then some ⟨3300, 2500, 4900, 2850, 3300, 3900⟩
  else if l = "remote".data then some ⟨3600, 2700, 5300, 3100, 3600, 4300⟩
  else none

/-- Location dict for "senior python developer". -/
def gdSeniorPythonDev (l : List Char) : Option GdEntry :=
  if l = "bratislava".data then some ⟨4200, 3400, 6000, 3700, 4200, 5000⟩
  else if l = "remote".data then some ⟨4800, 3800, 6800, 4200, 4800, 5600⟩
  else none

/-- Location dict for "devops engineer". -/
def gdDevops (l : List Char) : Option GdEntry :=
  if l = "bratislava".data then some ⟨3800, 3000, 5500, 3300, 3800, 4500⟩
  else if l = "remote".data then some ⟨4200, 3300, 6000, 3700, 4200, 5000⟩
  else none

/-- The loop's title test: `key in title_key or title_key in key`. -/
def gdKeyMatch (key t : List Char) : Bool := isSub key t || isSub t key

/-- One iteration of the key loop of `_scrape_glassdoor_slovakia`: if the
title matched this key, look the location up in this key's dict and return
on a hit; otherwise (no title match, or location miss) continue with the
rest of the loop. -/
def tryDict (cond : Bool) (res next : Option GdEntry) : Option GdEntry :=
  match (if cond then res else none) with
  | some e => some e
  | none => next

/-- The key loop of `_scrape_glassdoor_slovakia` over the normalized title
key `t` and location key `l`, visiting the five table keys in dict order. -/
def scrapeGlassdoorAux (t l : List Char) : Option GdEntry :=
  tryDict (gdKeyMatch "python developer".data t) (gdPythonDev l)
    (tryDict (gdKeyMatch "backend developer".data t) (gdBackendDev l)
      (tryDict (gdKeyMatch "fullstack developer".data t) (gdFullstackDev l)
        (tryDict (gdKeyMatch "senior python developer".data t) (gdSeniorPythonDev l)
          (tryDict (gdKeyMatch "devops engineer".data t) (gdDevops l) none))))

/-- `_scrape_glassdoor_slovakia`: normalize title and location
(`lower().strip()`), then run the key loop. -/
def scrapeGlassdoor (jobTitle location : List Char) : Option GdEntry :=
  scrapeGlassdoorAux (pyStrip (lowerL jobTitle)) (pyStrip (lowerL location))

/-- The profesia.sk keyword/salary table, in dict order. -/
def profesiaBase : List (List Char × ℚ) :=
  [("python".data, 3100), ("backend".data, 3300), ("fullstack".data, 3200),
   ("frontend".data, 2900), ("devops".data, 3700), ("senior".data, 4500)]

/-- The estimated salary of `_scrape_profesia_salaries`: a base of 2800
raised to the salary of every table keyword occurring in the (already
lowercased) title. -/
def profesiaEstimate (t : List Char) : ℚ :=
  profesiaBase.foldl (fun acc kv => if isSub kv.1 t then max acc kv.2 else acc) 2800

/-- `_scrape_profesia_salaries`: always returns an average plus 50 data
points. -/
def scrapeProfesia (jobTitle : List Char) : Option (ℚ × ℕ) :=
  some (profesiaEstimate (lowerL jobTitle), 50)

/-- `_scrape_platy_sk`. -/
def scrapePlaty (jobTitle : List Char) : Option (ℚ × ℕ) :=
  if isSub "python".data (lowerL jobTitle) then some (3000, 30)
  else if isSub "senior".data (lowerL jobTitle) then some (4300, 25)
  else none

/-- Maximal digit runs of a string — `re.findall` over the digit-run
pattern. -/
def digitRuns : List Char → List (List Char)
  | [] => []
  | c :: rest =>
    if c.isDigit then
      match rest with
      | r :: _ =>
        if r.isDigit then
          match digitRuns rest with
          | run :: more => (c :: run) :: more
          | [] => [[c]]
        else [c] :: digitRuns rest
      | [] => [[c]]
    else digitRuns rest

/-- Salary fields parsed from the posting's salary text. -/
structure SalaryRange where
  mn : ℚ
  mx : ℚ
  av : ℚ
deriving DecidableEq

/-- `_extract_salary_from_job`: needs a truthy salary text containing at
least two integers; min/max are the first two, average their midpoint
(which is also written to percentile 50 by the caller's update). -/
def extractSalaryFromJob (job : Job) : Option SalaryRange :=
  let salaryText := (job.salary.getD "").data
  if salaryText.isEmpty then none
  else
    match digitRuns salaryText with
    | n0 :: n1 :: _ =>
      some { mn := (digitsToNat n0 : ℚ), mx := (digitsToNat n1 : ℚ),
             av := qdiv (qadd (digitsToNat n0 : ℚ) (digitsToNat n1 : ℚ)) 2 }
    | _ => none

/-- The market_data dict of `_get_market_data_slovakia`. -/
structure MarketData where
  average_salary : Option ℚ
  min_salary : Option ℚ
  max_salary : Option ℚ
  percentile_25 : Option ℚ
  percentile_50 : Option ℚ
  percentile_75 : Option ℚ
  data_points : ℕ
  sources : List String
deriving DecidableEq

/-- The initial all-null market_data dict. -/
def emptyMarketData : MarketData :=
  { average_salary := none, min_salary := none, max_salary := none,
    percentile_25 := none, percentile_50 := none, percentile_75 := none,
    data_points := 0, sources := [] }

/-- The fusion part of `_get_market_data_slovakia` (everything before
`_apply_slovakia_market_factors`): Glassdoor dict update, then the
truthiness-guarded running pairwise mean of the Profesia and Platy
averages, then the job-posting fallback when the average is still falsy. -/
def fuseMarketData (job : Job) : MarketData :=
  let jobTitle := (job.title.getD "").data
  let location := (job.location.getD "Bratislava").data
  let md1 :=
    match scrapeGlassdoor jobTitle location with
    | some e =>
      { emptyMarketData with
          average_salary := some e.av, min_salary := some e.mn, max_salary := some e.mx,
          percentile_25 := some e.p25, percentile_50 := some e.p50,
          percentile_75 := some e.p75, data_points := 100,
          sources := emptyMarketData.sources ++ ["Glassdoor SK"] }
    | none => emptyMarketData
  let md2 :=
    match scrapeProfesia jobTitle with
    | some pd =>
      { md1 with
          average_salary := some (match md1.average_salary with
            | some a => if a = 0 then pd.1 else qdiv (qadd a pd.1) 2
            | none => pd.1),
          sources := md1.sources ++ ["Profesia SK"] }
    | none => md1
  let md3 :=
    match scrapePlaty jobTitle with
    | some pd =>
      { md2 with
          average_salary := some (match md2.average_salary with
            | some a => if a = 0 then pd.1 else qdiv (qadd a pd.1) 2
            | none => pd.1),
          sources := md2.sources ++ ["Platy.sk"] }
    | none => md2
  if numTruthy md3.average_salary then md3
  else
    match extractSalaryFromJob job with
    | some sr =>
      { md3 with min_salary := some sr.mn, max_salary := some sr.mx,
                 average_salary := some sr.av, percentile_50 := some sr.av,
                 sources := md3.sources ++ ["Job Posting"] }
    | none => md3

/-- The Slovakia location multiplier: first matching dict key, in insertion
order, over the lowercased location; default 1.0. -/
def locationMultiplier (locLower : List Char) : ℚ :=
  if isSub "bratislava".data locLower then 1
  else if isSub "košice".data locLower then qdiv 85 100
  else if isSub "žilina".data locLower then qdiv 80 100
  else if isSub "banská bystrica".data locLower then qdiv 78 100
  else if isSub "prešov".data locLower then qdiv 80 100
  else if isSub "nitra".data locLower then qdiv 82 100
  else if isSub "remote".data locLower then qdiv 11 10
  else if isSub "eu remote".data locLower then qdiv 13 10
  else 1

/-- `_apply_slovakia_market_factors`: scale each truthy average/min/max by
the location multiplier, truncating with `int()`; percentile fields are
left untouched. -/
def applySlovakiaMarketFactors (md : MarketData) (location : List Char) : MarketData :=
  let m := locationMultiplier (lowerL location)
  { md with
      average_salary := match md.average_salary with
        | some a => if a = 0 then some a else some (pyIntQ (qmul a m))
        | none => none,
      min_salary := match md.min_salary with
        | some a => if a = 0 then some a else some (pyIntQ (qmul a m))
        | none => none,
      max_salary := match md.max_salary with
        | some a => if a = 0 then some a else some (pyIntQ (qmul a m))
        | none => none }

/-- `_get_market_data_slovakia`. -/
def getMarketDataSlovakia (job : Job) : MarketData :=
  applySlovakiaMarketFactors (fuseMarketData job) (job.location.getD "Bratislava").data

/-- The analysis strings of a simulated round; constructors carrying a
number stand for the Python f-strings that comma-format that number. -/
inductive RoundMsg
  | initialCounterSubmitted
  | counteredMiddle (amount : ℚ)
  | acceptedCounter
  | counteredAtMax (amount : ℚ)
deriving DecidableEq

/-- One negotiation round dict (`your_counter` is only present in round 1). -/
structure NegotiationRound where
  round : ℕ
  employer_offer : ℚ
  your_response : String
  your_counter : Option ℚ
  analysis : RoundMsg
deriving DecidableEq

/-- `NegotiationAgent.simulate_negotiation`. -/
def simulateNegotiation (initial_offer your_counter employer_max : ℚ) :
    List NegotiationRound :=
  let round1 : NegotiationRound :=
    { round := 1, employer_offer := initial_offer, your_response := "counter",
      your_counter := some your_counter, analysis := RoundMsg.initialCounterSubmitted }
  if your_counter ≤ employer_max then
    if employer_max * (15/100) < your_counter - initial_offer then
      [round1,
       { round := 2, employer_offer := (initial_offer + your_counter) / 2,
         your_response := "evaluate", your_counter := none,
         analysis := RoundMsg.counteredMiddle ((initial_offer + your_counter) / 2) }]
    else
      [round1,
       { round := 2, employer_offer := your_counter, your_response := "accept",
         your_counter := none, analysis := RoundMsg.acceptedCounter }]
  else
    [round1,
     { round := 2, employer_offer := employer_max, your_response := "evaluate",
       your_counter := none, analysis := RoundMsg.counteredAtMax employer_max }]

/-- The analysis dict of `_analyze_offer`; `gap_to_target` holds the
(amount, percent) pair. -/
structure OfferAnalysis where
  offer_vs_market : String
  percentile : Option String
  gap_to_target : Option (ℚ × ℚ)
  negotiation_room : String
  market_position : String
deriving DecidableEq

/-- The default analysis dict. -/
def baseAnalysis : OfferAnalysis :=
  { offer_vs_market := "unknown", percentile := none, gap_to_target := none,
    negotiation_room := "medium", market_position := "fair" }

/-- `_analyze_offer`. Python reads `percentile_50` bare inside the
percentile block; in the pipeline p25/p75 are only ever set together with
p50 (by the Glassdoor table), so the `getD 0` default there models an
access that never sees `None` on pipeline-produced data. -/
def analyzeOffer (current_offer : Option ℚ) (md : MarketData) (user_target : Option ℚ) :
    OfferAnalysis :=
  if !numTruthy current_offer || !numTruthy md.average_salary then baseAnalysis
  else
    let offer := current_offer.getD 0
    let avg := md.average_salary.getD 0
    let a1 :=
      if numTruthy md.percentile_25 && numTruthy md.percentile_75 then
        if offer < md.percentile_25.getD 0 then
          { baseAnalysis with
              percentile := some "<25th",
              offer_vs_market := "below_market",
              negotiation_room := "high" }
        else if offer < md.percentile_50.getD 0 then
          { baseAnalysis with
              percentile := some "25-50th",
              offer_vs_market := "fair",
              negotiation_room := "medium" }
        else if offer < md.percentile_75.getD 0 then
          { baseAnalysis with
              percentile := some "50-75th",
              offer_vs_market := "good",
              negotiation_room := "medium" }
        else
          { baseAnalysis with
              percentile := some ">75th",
              offer_vs_market := "excellent",
              negotiation_room := "low" }
      else baseAnalysis
    let a2 :=
      if numTruthy user_target then
        let target := user_target.getD 0
        { a1 with gap_to_target := some (qsub target offer, qmul (qdiv (qsub target offer) offer) 100) }
      else a1
    let diff_percent := qmul (qdiv (qsub offer avg) avg) 100
    if diff_percent < -10 then { a2 with market_position := "below_market" }
    else if diff_percent < 5 then { a2 with market_position := "fair" }
    else if diff_percent < 15 then { a2 with market_position := "good" }
    else { a2 with market_position := "excellent" }

/-- Leverage / risk / benefit entries of the strategy. Constructors with a
payload stand for the Python f-strings that comma-format that payload;
plain strings are carried verbatim. -/
inductive StratMsg
  | lit (s : String)
  | commandsEuro (amount : ℤ)
  | belowMarketBy (amount : ℤ)
  | averageForRole (amount : ℚ)
deriving DecidableEq

/-- The strategy dict of `_generate_counter_offer_strategy`. -/
structure NegotiationStrategy where
  should_negotiate : Bool
  counter_offer : Option ℚ
  min_acceptable : Option ℚ
  ideal_outcome : Option ℚ
  leverage_points : List StratMsg
  risks : List StratMsg
  alternative_benefits : List StratMsg
deriving DecidableEq

/-- The initial strategy dict. -/
def baseStrategy : NegotiationStrategy :=
  { should_negotiate := true, counter_offer := none, min_acceptable := none,
    ideal_outcome := none, leverage_points := [], risks := [], alternative_benefits := [] }

/-- Python `a or b` for an optional number against a numeric default. -/
def orDefault (o : Option ℚ) (d : ℚ) : ℚ := if numTruthy o then o.getD 0 else d

/-- `_generate_counter_offer_strategy`. -/
def generateCounterOfferStrategy (job : Job) (current_offer : Option ℚ) (md : MarketData)
    (analysis : OfferAnalysis) (user_target : Option ℚ) : NegotiationStrategy :=
  if !numTruthy current_offer then
    let s1 :=
      if numTruthy md.percentile_75 then
        { baseStrategy with
            counter_offer := md.percentile_75,
            min_acceptable := md.percentile_50,
            ideal_outcome := md.max_salary }
      else
        { baseStrategy with
            counter_offer := some (orDefault user_target 4000),
            min_acceptable := some 3500 }
    { s1 with
        leverage_points :=
          [StratMsg.commandsEuro (pyInt (s1.counter_offer.getD 0)),
           StratMsg.lit "Your skills in Python, Django, REST APIs are in high demand",
           StratMsg.lit "Remote work capabilities add value"] }
  else
    let offer := current_offer.getD 0
    let s1 :=
      if analysis.offer_vs_market = "below_market" ∨ analysis.offer_vs_market = "fair" then
        { baseStrategy with
            counter_offer := some (if numTruthy md.percentile_75 then md.percentile_75.getD 0
              else qmul offer (qdiv 115 100)),
            should_negotiate := true,
            leverage_points := baseStrategy.leverage_points ++
              [StratMsg.belowMarketBy (pyInt (qsub (md.average_salary.getD 0) offer))] }
      else if analysis.offer_vs_market = "good" then
        { baseStrategy with
            counter_offer := some (qmul offer (qdiv 108 100)),
            should_negotiate := true,
            leverage_points := baseStrategy.leverage_points ++
              [StratMsg.lit "Requesting slight adjustment to align with top market performers"] }
      else
        { baseStrategy with
            should_negotiate := false,
            counter_offer := some offer,
            alternative_benefits :=
              [StratMsg.lit "Additional vacation days",
               StratMsg.lit "Remote work flexibility",
               StratMsg.lit "Professional development budget",
               StratMsg.lit "Sign-on bonus",
               StratMsg.lit "Stock options or equity"] }
    let s2 :=
      { s1 with
          min_acceptable := some (qmul offer (qdiv 105 100)),
          ideal_outcome := some (orDefault user_target (s1.counter_offer.getD 0)) }
    let s3 :=
      { s2 with
          leverage_points := s2.leverage_points ++
            [StratMsg.lit ("Market data from " ++ String.intercalate ", " md.sources),
             StratMsg.averageForRole (md.average_salary.getD 0),
             StratMsg.lit "Proven track record in similar positions",
             StratMsg.lit "Immediate availability and no notice period"] }
    let s4 :=
      if analysis.negotiation_room = "low" then
        { s3 with risks := s3.risks ++ [StratMsg.lit "Offer already at top of market range"] }
      else s3
    if job.company_size = some "startup" then
      { s4 with
          risks := s4.risks ++ [StratMsg.lit "Startup may have limited salary flexibility"],
          alternative_benefits := s4.alternative_benefits ++
            [StratMsg.lit "Equity compensation"] }
    else s4

/-- The Glassdoor entries reachable with location key "bratislava". -/
def gdBratEntries : List GdEntry :=
  [⟨3200, 2400, 4800, 2800, 3200, 3800⟩, ⟨3400, 2600, 5000, 2900, 3400, 4000⟩,
   ⟨3300, 2500, 4900, 2850, 3300, 3900⟩, ⟨4200, 3400, 6000, 3700, 4200, 5000⟩,
   ⟨3800, 3000, 5500, 3300, 3800, 4500⟩]

/-- The Glassdoor entries reachable with location key "kosice". -/
def gdKosiceEntries : List GdEntry :=
  [⟨2600, 2000, 3800, 2300, 2600, 3100⟩, ⟨2800, 2200, 4000, 2500, 2800, 3300⟩]

/-- The Glassdoor entries reachable with location key "remote". -/
def gdRemoteEntries : List GdEntry :=
  [⟨3500, 2600, 5200, 3000, 3500, 4200⟩, ⟨3700, 2800, 5400, 3200, 3700, 4400⟩,
   ⟨3600, 2700, 5300, 3100, 3600, 4300⟩, ⟨4800, 3800, 6800, 4200, 4800, 5600⟩,
   ⟨4200, 3300, 6000, 3700, 4200, 5000⟩]

/-- The Glassdoor/Profesia stage of the fused average: the pairwise mean
when Glassdoor contributed, the bare Profesia estimate otherwise. -/
def fuseAvgSpec1 (job : Job) : ℚ :=
  match scrapeGlassdoor (job.title.getD "").data (job.location.getD "Bratislava").data with
  | some g => qdiv (qadd g.av (profesiaEstimate (lowerL (job.title.getD "").data))) 2
  | none => profesiaEstimate (lowerL (job.title.getD "").data)

/-- The value the fused average always takes: the running pairwise mean of
the contributing sources in evaluation order. -/
def fuseAvgSpec (job : Job) : ℚ :=
  match scrapePlaty (job.title.getD "").data with
  | some p => qdiv (qadd (fuseAvgSpec1 job) p.1) 2
  | none => fuseAvgSpec1 job

/-! ## Theorems -/

theorem mem_takeWhile_pred {p : Char → Bool} :
    ∀ (l : List Char) (c : Char), c ∈ l.takeWhile p → p c = true := by
  intro l
  induction l with
  | nil => intro c h; simp [List.takeWhile] at h
  | cons a as ih =>
    intro c h
    by_cases hp : p a = true
    · rw [List.takeWhile_cons, if_pos hp] at h
      rcases List.mem_cons.mp h with rfl | h'
      · exact hp
      · exact ih c h'
    · rw [List.takeWhile_cons, if_neg hp] at h
      simp at h

theorem digit_sub_le (c : Char) (h : c.isDigit = true) : c.toNat - 48 ≤ 9 := by
  simp only [Char.isDigit, Bool.and_eq_true, decide_eq_true_eq] at h
  have h2 : c.val.toNat ≤ 57 := h.2
  simp only [Char.toNat]
  omega

theorem digitsToNat_lt_aux (ds : List Char) (h : ∀ c ∈ ds, c.isDigit = true) :
    ∀ a : ℕ, ds.foldl (fun a c => 10 * a + (c.toNat - 48)) a < (a + 1) * 10 ^ ds.length := by
  induction ds with
  | nil => intro a; simp
  | cons c cs ih =>
    intro a
    have hc : c.isDigit = true := h c (List.mem_cons_self c cs)
    have hcs : ∀ x ∈ cs, x.isDigit = true := fun x hx => h x (List.mem_cons_of_mem c hx)
    have hd : c.toNat - 48 ≤ 9 := digit_sub_le c hc
    have := ih hcs (10 * a + (c.toNat - 48))
    have hle : (10 * a + (c.toNat - 48) + 1) * 10 ^ cs.length ≤ (a + 1) * 10 ^ (cs.length + 1) := by
      have : 10 * a + (c.toNat - 48) + 1 ≤ (a + 1) * 10 := by omega
      calc (10 * a + (c.toNat - 48) + 1) * 10 ^ cs.length
          ≤ (a + 1) * 10 * 10 ^ cs.length := Nat.mul_le_mul_right _ this
        _ = (a + 1) * 10 ^ (cs.length + 1) := by ring
    simp only [List.foldl_cons, List.length_cons]
    exact lt_of_lt_of_le this hle

theorem digitsToNat_lt (ds : List Char) (h : ∀ c ∈ ds, c.isDigit = true) :
    digitsToNat ds < 10 ^ ds.length := by
  have := digitsToNat_lt_aux ds h 0
  simpa [digitsToNat] using this

theorem fracOf_bounds (rest : List Char) (q : ℚ) (h : fracOf rest = some q) :
    0 ≤ q ∧ q ≤ 1 := by
  unfold fracOf at h
  by_cases he : (rest.takeWhile Char.isDigit).isEmpty
  · simp only [he, if_true] at h
    exact absurd h (by simp)
  · simp only [he, if_false, Bool.false_eq_true] at h
    have hq := Option.some.inj h
    set ds := rest.takeWhile Char.isDigit with hds
    have hdig : ∀ c ∈ ds, c.isDigit = true := fun c hc => mem_takeWhile_pred rest c hc
    have hlt : (digitsToNat ds : ℚ) < 10 ^ ds.length := by
      exact_mod_cast digitsToNat_lt ds hdig
    have hpow : (0 : ℚ) < 10 ^ ds.length := by positivity
    constructor
    · rw [← hq]; positivity
    · rw [← hq]
      rw [div_le_one hpow]
      exact le_of_lt hlt

theorem matchFrac_bounds (s : List Char) (q : ℚ) (h : matchFrac s = some q) :
    0 ≤ q ∧ q ≤ 1 := by
  unfold matchFrac at h
  split at h
  · exact fracOf_bounds _ _ h
  · exact fracOf_bounds _ _ h
  · exact absurd h (by simp)

theorem matchOnePointZero_bounds (s : List Char) (q : ℚ)
    (h : matchOnePointZero s = some q) : 0 ≤ q ∧ q ≤ 1 := by
  unfold matchOnePointZero at h
  split at h
  · have := Option.some.inj h
    constructor <;> simp [← this]
  · exact absurd h (by simp)

theorem searchScore_bounds (s : List Char) (q : ℚ) (h : searchScore s = some q) :
    0 ≤ q ∧ q ≤ 1 := by
  induction s with
  | nil => simp [searchScore] at h
  | cons c rest ih =>
    rw [searchScore] at h
    cases hf : matchFrac (c :: rest) with
    | some qf =>
      rw [hf] at h
      exact (Option.some.inj h) ▸ matchFrac_bounds _ _ hf
    | none =>
      rw [hf] at h
      cases ho : matchOnePointZero (c :: rest) with
      | some qo =>
        rw [ho] at h
        exact (Option.some.inj h) ▸ matchOnePointZero_bounds _ _ ho
      | none =>
        rw [ho] at h
        exact ih h

theorem matchParseStep_score_bounds (st : MatchParseState) (raw : List Char)
    (h0 : 0 ≤ st.result.score) (h1 : st.result.score ≤ 1) :
    0 ≤ (matchParseStep st raw).result.score ∧ (matchParseStep st raw).result.score ≤ 1 := by
  simp only [matchParseStep]
  repeat' split
  all_goals first
    | exact ⟨h0, h1⟩
    | (rename_i q hq; exact searchScore_bounds _ _ hq)

theorem critiqueParseStep_score_bounds (st : CritiqueParseState) (raw : List Char)
    (h0 : 0 ≤ st.result.score) (h1 : st.result.score ≤ 1) :
    0 ≤ (critiqueParseStep st raw).result.score ∧ (critiqueParseStep st raw).result.score ≤ 1 := by
  simp only [critiqueParseStep]
  repeat' split
  all_goals first
    | exact ⟨h0, h1⟩
    | (rename_i q hq; exact searchScore_bounds _ _ hq)

theorem foldl_matchParseStep_bounds (lines : List (List Char)) (st : MatchParseState)
    (h0 : 0 ≤ st.result.score) (h1 : st.result.score ≤ 1) :
    0 ≤ (lines.foldl matchParseStep st).result.score ∧
      (lines.foldl matchParseStep st).result.score ≤ 1 := by
  induction lines generalizing st with
  | nil => exact ⟨h0, h1⟩
  | cons l ls ih =>
    simp only [List.foldl_cons]
    obtain ⟨a, b⟩ := matchParseStep_score_bounds st l h0 h1
    exact ih _ a b

theorem foldl_critiqueParseStep_bounds (lines : List (List Char)) (st : CritiqueParseState)
    (h0 : 0 ≤ st.result.score) (h1 : st.result.score ≤ 1) :
    0 ≤ (lines.foldl critiqueParseStep st).result.score ∧
      (lines.foldl critiqueParseStep st).result.score ≤ 1 := by
  induction lines generalizing st with
  | nil => exact ⟨h0, h1⟩
  | cons l ls ih =>
    simp only [List.foldl_cons]
    obtain ⟨a, b⟩ := critiqueParseStep_score_bounds st l h0 h1
    exact ih _ a b

theorem matchParseStep_unrecognized (st : MatchParseState) (raw : List Char)
    (h : matchRecognized st raw = false) : matchParseStep st raw = st := by
  simp only [matchRecognized, Bool.or_eq_false_iff, Bool.and_eq_false_iff] at h
  simp only [matchParseStep]
  simp only [h.1.1.1, h.1.1.2, h.1.2, Bool.false_eq_true, if_false]
  rcases h.2 with h4 | h4
  · simp [h4]
  · simp [h4, Bool.and_eq_false_iff]

theorem critiqueParseStep_unrecognized (st : CritiqueParseState) (raw : List Char)
    (h : critiqueRecognized st raw = false) : critiqueParseStep st raw = st := by
  simp only [critiqueRecognized, Bool.or_eq_false_iff, Bool.and_eq_false_iff] at h
  simp only [critiqueParseStep]
  simp only [h.1.1.1.1.1.1, h.1.1.1.1.1.2, h.1.1.1.1.2, h.1.1.1.2, h.1.1.2, h.1.2,
    Bool.false_eq_true, if_false]
  rcases h.2 with h7 | h7
  · simp [h7]
  · simp [h7, Bool.and_eq_false_iff]

/-- C1: for every input text the assessment parsers return a record (they
are total functions of the text, never raising), the returned score always
lies in [0, 1], and a line that matches no recognized `LABEL:` prefix and
is not a `- ` bullet under an open list section leaves the parser state
unchanged — so the worst case over all inputs is the all-default record. -/
theorem C1_parsers_bounded_and_total :
    (∀ text : List Char,
        0 ≤ (parseAiResponse text).score ∧ (parseAiResponse text).score ≤ 1) ∧
    (∀ text : List Char,
        0 ≤ (parseCritiqueResponse text).score ∧ (parseCritiqueResponse text).score ≤ 1) ∧
    (∀ (st : MatchParseState) (raw : List Char),
        matchRecognized st raw = false → matchParseStep st raw = st) ∧
    (∀ (st : CritiqueParseState) (raw : List Char),
        critiqueRecognized st raw = false → critiqueParseStep st raw = st) := by
  refine ⟨fun text => ?_, fun text => ?_,
    matchParseStep_unrecognized, critiqueParseStep_unrecognized⟩
  · exact foldl_matchParseStep_bounds _ _ (by norm_num [matchInitState]) (by norm_num [matchInitState])
  · exact foldl_critiqueParseStep_bounds _ _ (by norm_num [critiqueInitState]) (by norm_num [critiqueInitState])

/-- Witness for C1 at concrete inputs: a parsed score in bounds, and two
concrete unrecognized lines that leave the state unchanged. -/
theorem C1_witness :
    (0 ≤ (parseAiResponse "SCORE: 0.85".data).score ∧
      (parseAiResponse "SCORE: 0.85".data).score ≤ 1) ∧
    matchParseStep matchInitState "hello".data = matchInitState ∧
    critiqueParseStep critiqueInitState "world".data = critiqueInitState :=
  ⟨C1_parsers_bounded_and_total.1 _,
   C1_parsers_bounded_and_total.2.2.1 _ _ (by decide),
   C1_parsers_bounded_and_total.2.2.2 _ _ (by decide)⟩

theorem qdiv_eq (a b : ℚ) : qdiv a b = a / b := (Rat.div_def' a b).symm

theorem qadd_eq (a b : ℚ) : qadd a b = a + b := by
  rw [qadd]
  conv_rhs => rw [← Rat.num_divInt_den a, ← Rat.num_divInt_den b]
  rw [Rat.divInt_add_divInt _ _ (by exact_mod_cast a.den_ne_zero)
    (by exact_mod_cast b.den_ne_zero)]

theorem qsub_eq (a b : ℚ) : qsub a b = a - b := by
  rw [qsub]
  conv_rhs => rw [← Rat.num_divInt_den a, ← Rat.num_divInt_den b]
  rw [Rat.divInt_sub_divInt _ _ (by exact_mod_cast a.den_ne_zero)
    (by exact_mod_cast b.den_ne_zero)]

theorem qmul_eq (a b : ℚ) : qmul a b = a * b := by
  rw [qmul]
  conv_rhs => rw [← Rat.num_divInt_den a, ← Rat.num_divInt_den b]
  rw [Rat.divInt_mul_divInt _ _ (by exact_mod_cast a.den_ne_zero)
    (by exact_mod_cast b.den_ne_zero)]

theorem roundHE_nonneg (q : ℚ) (h : 0 ≤ q) : 0 ≤ roundHE q := by
  have hf : (0 : ℤ) ≤ ⌊q⌋ := Int.floor_nonneg.mpr h
  unfold roundHE
  split_ifs <;> omega

theorem roundHE_le (q : ℚ) : (roundHE q : ℚ) ≤ q + 1/2 := by
  have hf : (⌊q⌋ : ℚ) ≤ q := Int.floor_le q
  unfold roundHE
  split_ifs with h1 h2 h3 <;> push_cast <;> linarith

theorem pyRound2_bounds (q : ℚ) (h0 : 0 ≤ q) (h1 : q ≤ 19/20) :
    0 ≤ pyRound2 q ∧ pyRound2 q ≤ 1 := by
  have hn : (0 : ℤ) ≤ roundHE (q * 100) := roundHE_nonneg _ (by linarith)
  have hu : (roundHE (q * 100) : ℚ) ≤ q * 100 + 1/2 := roundHE_le _
  constructor
  · unfold pyRound2
    have : (0 : ℚ) ≤ (roundHE (q * 100) : ℚ) := by exact_mod_cast hn
    positivity
  · unfold pyRound2
    rw [div_le_one (by norm_num)]
    linarith

theorem frac_bounds (m n : ℕ) (hmn : m ≤ n) (hn : 0 < n) :
    0 ≤ (m : ℚ) / (n : ℚ) ∧ (m : ℚ) / (n : ℚ) ≤ 1 := by
  have hnq : (0 : ℚ) < (n : ℚ) := by exact_mod_cast hn
  constructor
  · positivity
  · rw [div_le_one hnq]
    exact_mod_cast hmn

theorem claimedFallbackScore_bounds (job : Job) (prefs : Preferences) :
    0 ≤ claimedFallbackScore job prefs ∧ claimedFallbackScore job prefs ≤ 19/20 := by
  have hreq : prefs.required_skills.isEmpty = false →
      0 ≤ (matchedRequired job prefs : ℚ) / (prefs.required_skills.length : ℚ) ∧
      (matchedRequired job prefs : ℚ) / (prefs.required_skills.length : ℚ) ≤ 1 := by
    intro h
    refine frac_bounds _ _ (List.countP_le_length _) ?_
    cases hl : prefs.required_skills with
    | nil => rw [hl] at h; simp at h
    | cons a l => simp
  have hpref : prefs.preferred_skills.isEmpty = false →
      0 ≤ (matchedPreferred job prefs : ℚ) / (prefs.preferred_skills.length : ℚ) ∧
      (matchedPreferred job prefs : ℚ) / (prefs.preferred_skills.length : ℚ) ≤ 1 := by
    intro h
    refine frac_bounds _ _ (List.countP_le_length _) ?_
    cases hl : prefs.preferred_skills with
    | nil => rw [hl] at h; simp at h
    | cons a l => simp
  unfold claimedFallbackScore
  split_ifs <;> (try simp only [mul_div_assoc]) <;> constructor <;>
    first
    | linarith
    | (obtain ⟨r0, r1⟩ := hreq (by simpa using ‹¬prefs.required_skills.isEmpty = true›)
       linarith)
    | (obtain ⟨p0, p1⟩ := hpref (by simpa using ‹¬prefs.preferred_skills.isEmpty = true›)
       linarith)
    | (obtain ⟨r0, r1⟩ := hreq (by simpa using ‹¬prefs.required_skills.isEmpty = true›)
       obtain ⟨p0, p1⟩ := hpref (by simpa using ‹¬prefs.preferred_skills.isEmpty = true›)
       linarith)

/-- C2: the fallback score is exactly the rounded weighted sum of the
title/location/required/preferred terms, lies in [0, 1], and the
missing-skills list is exactly the required skills not found in the
combined job text. -/
theorem C2_rule_based_match (job : Job) (prefs : Preferences) :
    (ruleBasedMatch job prefs).score = pyRound2 (claimedFallbackScore job prefs) ∧
    0 ≤ (ruleBasedMatch job prefs).score ∧ (ruleBasedMatch job prefs).score ≤ 1 ∧
    (ruleBasedMatch job prefs).missing_skills =
      prefs.required_skills.filter fun sk => !isSub (lowerL sk.data) (jobText job) := by
  have hscore : (ruleBasedMatch job prefs).score = pyRound2 (claimedFallbackScore job prefs) := by
    simp only [ruleBasedMatch, claimedFallbackScore]
    split_ifs <;> (congr 1; ring)
  have hb := claimedFallbackScore_bounds job prefs
  have hpr := pyRound2_bounds _ hb.1 hb.2
  refine ⟨hscore, hscore ▸ hpr.1, hscore ▸ hpr.2, ?_⟩
  simp only [ruleBasedMatch]
  split_ifs with h <;> simp_all [List.isEmpty_iff]

/-- C9: the batch operation returns exactly the input jobs whose fallback
score reaches the threshold, in input order, each enriched with score,
reasons and missing skills; the default threshold is 0.70. -/
theorem C9_execute_filters (minScore : ℚ) (prefs : Preferences) (jobs : List Job) :
    matcherExecute minScore prefs jobs =
      (jobs.filter fun j => decide (minScore ≤ (ruleBasedMatch j prefs).score)).map
        (fun j => enrichJob j (ruleBasedMatch j prefs)) ∧
    defaultMinMatchScore = 7/10 := by
  constructor
  · induction jobs with
    | nil => rfl
    | cons j rest ih =>
      by_cases h : minScore ≤ (ruleBasedMatch j prefs).score
      · simp [matcherExecute, List.filter_cons, h, ih]
      · simp [matcherExecute, List.filter_cons, h, ih]
  · rfl

/-- C7: the rule-based critique approves iff the match score is at least
0.5 and it is not the case that strict mode is on with more than 3 missing
skills; red-flag keyword hits never by themselves cause rejection (approval
ignores the description text entirely); and feedback is exactly one entry —
the rejection reason when rejected, the pass confirmation when approved. -/
theorem C7_rule_based_critique (strictMode : Bool) (job : Job) :
    ((ruleBasedCritique strictMode job).approved = true ↔
      (1/2 ≤ job.match_score.getD 0 ∧
        ¬(strictMode = true ∧ 3 < (job.missing_skills.getD []).length))) ∧
    (ruleBasedCritique strictMode job).feedback =
      [if (ruleBasedCritique strictMode job).approved then "Job passes basic validation criteria"
       else (ruleBasedCritique strictMode job).rejection_reason] ∧
    (ruleBasedCritique strictMode job).feedback.length = 1 ∧
    (∀ d fd : Option String,
      (ruleBasedCritique strictMode
          { job with description := d, full_description := fd }).approved =
        (ruleBasedCritique strictMode job).approved) := by
  refine ⟨?_, ?_, ?_, fun d fd => ?_⟩
  · simp only [ruleBasedCritique]
    split_ifs with h1 h2 h3 <;> simp_all
  · simp only [ruleBasedCritique]
    split_ifs <;> rfl
  · simp only [ruleBasedCritique]
    split_ifs <;> rfl
  · simp only [ruleBasedCritique]

/-- C3: the simulation is a pure function of its three numeric inputs
(hence deterministic), always returns exactly 2 rounds, round 1 is always a
counter at your_counter, and round 2 follows the claimed three-way branch:
counter above employer max gets the max and evaluate; an increase above 15
percent of the max gets the midpoint and evaluate; otherwise the counter is
accepted. -/
theorem C3_simulate_negotiation (i c m : ℚ) :
    (simulateNegotiation i c m).length = 2 ∧
    (simulateNegotiation i c m)[0]? =
      some { round := 1, employer_offer := i, your_response := "counter",
             your_counter := some c, analysis := RoundMsg.initialCounterSubmitted } ∧
    ((simulateNegotiation i c m)[1]?).map
        (fun r => (r.round, r.employer_offer, r.your_response)) =
      some (if m < c then (2, m, "evaluate")
            else if m * (15/100) < c - i then (2, (i + c) / 2, "evaluate")
            else (2, c, "accept")) := by
  unfold simulateNegotiation
  rcases le_or_lt c m with h | h
  · rw [if_pos h, if_neg (not_lt.mpr h)]
    split_ifs <;> simp
  · rw [if_neg (not_le.mpr h), if_pos h]
    simp

/-- C6 counterexample: for the job "senior python" in Bratislava the fused
market data has average 3675 with p25 = 3700, p50 = 4200 and p75 = 5000. A
current offer of 4000 deviates +8.84 percent from the average, so the
percent-deviation market position is "good" — yet the generated counter
offer is the 75th percentile 5000 (the offer sits in the 25-50th percentile
band "fair"), not 4000 × 1.08 = 4320. -/
theorem C6_counterexample :
    (analyzeOffer (some 4000)
        (getMarketDataSlovakia { title := some "senior python", location := some "bratislava" })
        none).market_position = "good" ∧
    (generateCounterOfferStrategy
        { title := some "senior python", location := some "bratislava" } (some 4000)
        (getMarketDataSlovakia { title := some "senior python", location := some "bratislava" })
        (analyzeOffer (some 4000)
          (getMarketDataSlovakia { title := some "senior python", location := some "bratislava" })
          none)
        none).counter_offer = some 5000 ∧
    (5000 : ℚ) ≠ 4000 * (108/100) := by
  refine ⟨by decide, by decide, by norm_num⟩

/-- C6 amended: the strategy decision table is keyed by the percentile-band
field offer_vs_market, not by the percent-deviation market_position the
claim names; whenever `_analyze_offer` yields the band "good" (offer at or
above p50 and below p75), the counter-offer equals current_offer × 1.08 and
should_negotiate is true. -/
theorem C6_amended (job : Job) (o : ℚ) (md : MarketData) (tgt : Option ℚ)
    (h : (analyzeOffer (some o) md tgt).offer_vs_market = "good") :
    (generateCounterOfferStrategy job (some o) md
        (analyzeOffer (some o) md tgt) tgt).counter_offer = some (o * (108/100)) ∧
    (generateCounterOfferStrategy job (some o) md
        (analyzeOffer (some o) md tgt) tgt).should_negotiate = true := by
  have ho : numTruthy (some o) = true := by
    cases hb : numTruthy (some o) with
    | true => rfl
    | false =>
      exfalso
      unfold analyzeOffer at h
      rw [hb] at h
      simp [baseAnalysis] at h
  unfold generateCounterOfferStrategy
  rw [ho]
  simp only [Bool.not_true, Bool.false_eq_true, if_false, h]
  split_ifs with h1 h2 h3 <;> simp_all [qmul_eq, qdiv_eq]

/-- Witness for the amended C6: the Bratislava "python developer" market
data (avg 3075, p50 3200, p75 3800) with an offer of 3400 lands in the
"good" percentile band, and the strategy is 3400 × 1.08 with negotiation
recommended. -/
theorem C6_amended_witness :
    (analyzeOffer (some 3400)
        (getMarketDataSlovakia { title := some "python developer", location := some "bratislava" })
        none).offer_vs_market = "good" ∧
    (generateCounterOfferStrategy
        { title := some "python developer", location := some "bratislava" } (some 3400)
        (getMarketDataSlovakia { title := some "python developer", location := some "bratislava" })
        (analyzeOffer (some 3400)
          (getMarketDataSlovakia { title := some "python developer", location := some "bratislava" })
          none)
        none).counter_offer = some (3400 * (108/100)) ∧
    (generateCounterOfferStrategy
        { title := some "python developer", location := some "bratislava" } (some 3400)
        (getMarketDataSlovakia { title := some "python developer", location := some "bratislava" })
        (analyzeOffer (some 3400)
          (getMarketDataSlovakia { title := some "python developer", location := some "bratislava" })
          none)
        none).should_negotiate = true :=
  ⟨by decide,
   (C6_amended _ 3400 _ none (by decide)).1,
   (C6_amended _ 3400 _ none (by decide)).2⟩

theorem leadMatch_mem {n h : List Char} (hm : leadMatch n h = true) :
    ∀ c ∈ n, c ∈ h := by
  induction n generalizing h with
  | nil => intro c hc; simp at hc
  | cons a as ih =>
    cases h with
    | nil => simp [leadMatch] at hm
    | cons b bs =>
      simp only [leadMatch, Bool.and_eq_true, beq_iff_eq] at hm
      intro c hc
      rcases List.mem_cons.mp hc with rfl | hc'
      · exact hm.1 ▸ List.mem_cons_self _ _
      · exact List.mem_cons_of_mem _ (ih hm.2 c hc')

theorem isSub_mem {n h : List Char} (hs : isSub n h = true) : ∀ c ∈ n, c ∈ h := by
  induction h with
  | nil =>
    intro c hc
    cases n with
    | nil => simp at hc
    | cons a as => simp [isSub, List.isEmpty] at hs
  | cons b bs ih =>
    rw [isSub, Bool.or_eq_true] at hs
    intro c hc
    rcases hs with hs | hs
    · exact leadMatch_mem hs c hc
    · exact List.mem_cons_of_mem _ (ih hs c hc)

theorem not_isSub_of_missing {n h : List Char} (c : Char) (hcn : c ∈ n) (hch : c ∉ h) :
    isSub n h = false := by
  cases hi : isSub n h with
  | false => rfl
  | true => exact absurd (isSub_mem hi c hcn) hch

theorem leadMatch_append (n b : List Char) : leadMatch n (n ++ b) = true := by
  induction n with
  | nil => rfl
  | cons a as ih => simp [leadMatch, ih]

theorem isSub_of_leadMatch {n h : List Char} (hm : leadMatch n h = true) :
    isSub n h = true := by
  cases h with
  | nil =>
    cases n with
    | nil => rfl
    | cons a as => simp [leadMatch] at hm
  | cons b bs => rw [isSub, Bool.or_eq_true]; exact Or.inl hm

theorem isSub_append_left {n t : List Char} (a : List Char) (hs : isSub n t = true) :
    isSub n (a ++ t) = true := by
  induction a with
  | nil => exact hs
  | cons x xs ih =>
    rw [List.cons_append, isSub, Bool.or_eq_true]
    exact Or.inr ih

theorem isSub_infix (a n b : List Char) : isSub n (a ++ n ++ b) = true := by
  rw [List.append_assoc]
  exact isSub_append_left a (isSub_of_leadMatch (leadMatch_append n b))

theorem mem_of_pyStrip {s k : List Char} (h : pyStrip s = k) :
    ∃ a b, s = a ++ k ++ b ∧ (∀ c ∈ a, isPyWs c = true) ∧ (∀ c ∈ b, isPyWs c = true) := by
  unfold pyStrip at h
  set d := s.dropWhile isPyWs with hd
  have hs : s = s.takeWhile isPyWs ++ d := (List.takeWhile_append_dropWhile ..).symm
  have h2 : d.reverse.dropWhile isPyWs = k.reverse := by
    rw [← h, List.reverse_reverse]
  have h3 : d.reverse = d.reverse.takeWhile isPyWs ++ k.reverse := by
    rw [← h2]
    exact (List.takeWhile_append_dropWhile ..).symm
  have h4 : d = k ++ (d.reverse.takeWhile isPyWs).reverse := by
    have := congrArg List.reverse h3
    rwa [List.reverse_reverse, List.reverse_append, List.reverse_reverse] at this
  refine ⟨s.takeWhile isPyWs, (d.reverse.takeWhile isPyWs).reverse, ?_, ?_, ?_⟩
  · rw [List.append_assoc, ← h4, ← hs]
  · exact fun c hc => mem_takeWhile_pred s c hc
  · intro c hc
    rw [List.mem_reverse] at hc
    exact mem_takeWhile_pred d.reverse c hc

theorem not_mem_padded {a b k : List Char} (c : Char)
    (ha : ∀ x ∈ a, isPyWs x = true) (hb : ∀ x ∈ b, isPyWs x = true)
    (hcw : isPyWs c = false) (hck : c ∉ k) : c ∉ a ++ k ++ b := by
  intro hm
  rcases List.mem_append.mp hm with hm' | hm'
  · rcases List.mem_append.mp hm' with hm'' | hm''
    · rw [ha c hm''] at hcw; exact Bool.true_eq_false.mp hcw
    · exact hck hm''
  · rw [hb c hm'] at hcw; exact Bool.true_eq_false.mp hcw

theorem multiplier_of_bratislava {l : List Char} (h : pyStrip l = "bratislava".data) :
    locationMultiplier l = 1 := by
  obtain ⟨a, b, rfl, ha, hb⟩ := mem_of_pyStrip h
  rw [locationMultiplier, isSub_infix, if_pos rfl]

theorem multiplier_of_kosice {l : List Char} (h : pyStrip l = "kosice".data) :
    locationMultiplier l = 1 := by
  obtain ⟨a, b, rfl, ha, hb⟩ := mem_of_pyStrip h
  rw [locationMultiplier,
    not_isSub_of_missing 'b' (by decide) (not_mem_padded 'b' ha hb (by decide) (by decide)),
    not_isSub_of_missing 'š' (by decide) (not_mem_padded 'š' ha hb (by decide) (by decide)),
    not_isSub_of_missing 'ž' (by decide) (not_mem_padded 'ž' ha hb (by decide) (by decide)),
    not_isSub_of_missing 'y' (by decide) (not_mem_padded 'y' ha hb (by decide) (by decide)),
    not_isSub_of_missing 'p' (by decide) (not_mem_padded 'p' ha hb (by decide) (by decide)),
    not_isSub_of_missing 'n' (by decide) (not_mem_padded 'n' ha hb (by decide) (by decide)),
    not_isSub_of_missing 'r' (by decide) (not_mem_padded 'r' ha hb (by decide) (by decide)),
    not_isSub_of_missing 'u' (by decide) (not_mem_padded 'u' ha hb (by decide) (by decide))]
  simp

theorem multiplier_of_remote {l : List Char} (h : pyStrip l = "remote".data) :
    locationMultiplier l = qdiv 11 10 := by
  obtain ⟨a, b, rfl, ha, hb⟩ := mem_of_pyStrip h
  rw [locationMultiplier,
    not_isSub_of_missing 'b' (by decide) (not_mem_padded 'b' ha hb (by decide) (by decide)),
    not_isSub_of_missing 'k' (by decide) (not_mem_padded 'k' ha hb (by decide) (by decide)),
    not_isSub_of_missing 'ž' (by decide) (not_mem_padded 'ž' ha hb (by decide) (by decide)),
    not_isSub_of_missing 'y' (by decide) (not_mem_padded 'y' ha hb (by decide) (by decide)),
    not_isSub_of_missing 'p' (by decide) (not_mem_padded 'p' ha hb (by decide) (by decide)),
    not_isSub_of_missing 'n' (by decide) (not_mem_padded 'n' ha hb (by decide) (by decide)),
    isSub_infix]
  simp

theorem gdPythonDev_cases {l : List Char} {e : GdEntry} (h : gdPythonDev l = some e) :
    (l = "bratislava".data ∧ e ∈ gdBratEntries) ∨ (l = "kosice".data ∧ e ∈ gdKosiceEntries) ∨
    (l = "remote".data ∧ e ∈ gdRemoteEntries) := by
  unfold gdPythonDev at h
  split_ifs at h with h1 h2 h3
  · exact Or.inl ⟨h1, by rw [← Option.some.inj h]; decide⟩
  · exact Or.inr (Or.inl ⟨h2, by rw [← Option.some.inj h]; decide⟩)
  · exact Or.inr (Or.inr ⟨h3, by rw [← Option.some.inj h]; decide⟩)

theorem gdBackendDev_cases {l : List Char} {e : GdEntry} (h : gdBackendDev l = some e) :
    (l = "bratislava".data ∧ e ∈ gdBratEntries) ∨ (l = "kosice".data ∧ e ∈ gdKosiceEntries) ∨
    (l = "remote".data ∧ e ∈ gdRemoteEntries) := by
  unfold gdBackendDev at h
  split_ifs at h with h1 h2 h3
  · exact Or.inl ⟨h1, by rw [← Option.some.inj h]; decide⟩
  · exact Or.inr (Or.inl ⟨h2, by rw [← Option.some.inj h]; decide⟩)
  · exact Or.inr (Or.inr ⟨h3, by rw [← Option.some.inj h]; decide⟩)

theorem gdFullstackDev_cases {l : List Char} {e : GdEntry} (h : gdFullstackDev l = some e) :
    (l = "bratislava".data ∧ e ∈ gdBratEntries) ∨ (l = "kosice".data ∧ e ∈ gdKosiceEntries) ∨
    (l = "remote".data ∧ e ∈ gdRemoteEntries) := by
  unfold gdFullstackDev at h
  split_ifs at h with h1 h2
  · exact Or.inl ⟨h1, by rw [← Option.some.inj h]; decide⟩
  · exact Or.inr (Or.inr ⟨h2, by rw [← Option.some.inj h]; decide⟩)

theorem gdSeniorPythonDev_cases {l : List Char} {e : GdEntry}
    (h : gdSeniorPythonDev l = some e) :
    (l = "bratislava".data ∧ e ∈ gdBratEntries) ∨ (l = "kosice".data ∧ e ∈ gdKosiceEntries) ∨
    (l = "remote".data ∧ e ∈ gdRemoteEntries) := by
  unfold gdSeniorPythonDev at h
  split_ifs at h with h1 h2
  · exact Or.inl ⟨h1, by rw [← Option.some.inj h]; decide⟩
  · exact Or.inr (Or.inr ⟨h2, by rw [← Option.some.inj h]; decide⟩)

theorem gdDevops_cases {l : List Char} {e : GdEntry} (h : gdDevops l = some e) :
    (l = "bratislava".data ∧ e ∈ gdBratEntries) ∨ (l = "kosice".data ∧ e ∈ gdKosiceEntries) ∨
    (l = "remote".data ∧ e ∈ gdRemoteEntries) := by
  unfold gdDevops at h
  split_ifs at h with h1 h2
  · exact Or.inl ⟨h1, by rw [← Option.some.inj h]; decide⟩
  · exact Or.inr (Or.inr ⟨h2, by rw [← Option.some.inj h]; decide⟩)

theorem tryDict_cases {c : Bool} {r n : Option GdEntry} {e : GdEntry}
    (h : tryDict c r n = some e) : r = some e ∨ n = some e := by
  unfold tryDict at h
  split at h
  · rename_i heq
    split at heq
    · exact Or.inl (heq.trans h)
    · exact absurd heq (by simp)
  · exact Or.inr h

/-- Any successful Glassdoor lookup pins the normalized location to one of
the three table location keys and the entry to that key's entries. -/
theorem scrapeGlassdoor_cases {t l : List Char} {e : GdEntry}
    (h : scrapeGlassdoor t l = some e) :
    (pyStrip (lowerL l) = "bratislava".data ∧ e ∈ gdBratEntries) ∨
    (pyStrip (lowerL l) = "kosice".data ∧ e ∈ gdKosiceEntries) ∨
    (pyStrip (lowerL l) = "remote".data ∧ e ∈ gdRemoteEntries) := by
  rw [scrapeGlassdoor, scrapeGlassdoorAux] at h
  rcases tryDict_cases h with h | h
  · exact gdPythonDev_cases h
  rcases tryDict_cases h with h | h
  · exact gdBackendDev_cases h
  rcases tryDict_cases h with h | h
  · exact gdFullstackDev_cases h
  rcases tryDict_cases h with h | h
  · exact gdSeniorPythonDev_cases h
  rcases tryDict_cases h with h | h
  · exact gdDevops_cases h
  exact Option.noConfusion h

/-- Every reachable Glassdoor entry has positive average, min and max. -/
theorem gd_entry_pos {e : GdEntry}
    (h : e ∈ gdBratEntries ∨ e ∈ gdKosiceEntries ∨ e ∈ gdRemoteEntries) :
    0 < e.av ∧ 0 < e.mn ∧ 0 < e.mx := by
  rcases h with h | h | h <;> fin_cases h <;> exact ⟨by decide, by decide, by decide⟩

theorem foldl_max_ge (l : List (List Char × ℚ)) (t : List Char) :
    ∀ acc : ℚ, acc ≤ l.foldl (fun acc kv => if isSub kv.1 t then max acc kv.2 else acc) acc := by
  induction l with
  | nil => intro acc; exact le_refl _
  | cons kv rest ih =>
    intro acc
    simp only [List.foldl_cons]
    refine le_trans ?_ (ih _)
    split_ifs
    · exact le_max_left _ _
    · exact le_refl _

theorem profesiaEstimate_ge (t : List Char) : 2800 ≤ profesiaEstimate t :=
  foldl_max_ge profesiaBase t 2800

theorem profesiaEstimate_pos (t : List Char) : 0 < profesiaEstimate t :=
  lt_of_lt_of_le (by norm_num) (profesiaEstimate_ge t)

theorem scrapePlaty_cases {t : List Char} {p : ℚ × ℕ} (h : scrapePlaty t = some p) :
    p.1 = 3000 ∨ p.1 = 4300 := by
  unfold scrapePlaty at h
  split_ifs at h
  · rw [← Option.some.inj h]; exact Or.inl rfl
  · rw [← Option.some.inj h]; exact Or.inr rfl

theorem scrapePlaty_pos {t : List Char} {p : ℚ × ℕ} (h : scrapePlaty t = some p) : 0 < p.1 := by
  rcases scrapePlaty_cases h with h1 | h1 <;> rw [h1] <;> norm_num

theorem scrapeGlassdoor_pos {t l : List Char} {g : GdEntry}
    (h : scrapeGlassdoor t l = some g) : 0 < g.av ∧ 0 < g.mn ∧ 0 < g.mx := by
  rcases scrapeGlassdoor_cases h with ⟨_, hm⟩ | ⟨_, hm⟩ | ⟨_, hm⟩ <;>
    exact gd_entry_pos (by tauto)

theorem qdiv2_pos {a : ℚ} (ha : 0 < a) : 0 < qdiv a 2 := by
  rw [qdiv_eq]; positivity

theorem qadd_pos {a b : ℚ} (ha : 0 < a) (hb : 0 < b) : 0 < qadd a b := by
  rw [qadd_eq]; linarith

theorem numTruthy_some {q : ℚ} (h : q ≠ 0) : numTruthy (some q) = true := by
  simp [numTruthy, h]

theorem fuseAvgSpec1_pos (job : Job) : 0 < fuseAvgSpec1 job := by
  have hprof := profesiaEstimate_pos (lowerL (job.title.getD "").data)
  rcases hg : scrapeGlassdoor (job.title.getD "").data (job.location.getD "Bratislava").data
    with _ | g
  · simp [fuseAvgSpec1, hg, hprof]
  · have hav := (scrapeGlassdoor_pos hg).1
    simp only [fuseAvgSpec1, hg]
    exact qdiv2_pos (qadd_pos hav hprof)

theorem fuseAvgSpec_pos (job : Job) : 0 < fuseAvgSpec job := by
  rcases hp : scrapePlaty (job.title.getD "").data with _ | p
  · simp only [fuseAvgSpec, hp]
    exact fuseAvgSpec1_pos job
  · simp only [fuseAvgSpec, hp]
    exact qdiv2_pos (qadd_pos (fuseAvgSpec1_pos job) (scrapePlaty_pos hp))

/-- Structural characterization of `fuseMarketData`: Profesia always
contributes, the average is always set (to the running pairwise mean, a
positive number), min/max and the percentiles come from Glassdoor alone,
and the job-posting fallback branch is dead code. -/
theorem fuseMarketData_char (job : Job) :
    fuseMarketData job =
      { average_salary := some (fuseAvgSpec job),
        min_salary := (scrapeGlassdoor (job.title.getD "").data
          (job.location.getD "Bratislava").data).map (fun g => g.mn),
        max_salary := (scrapeGlassdoor (job.title.getD "").data
          (job.location.getD "Bratislava").data).map (fun g => g.mx),
        percentile_25 := (scrapeGlassdoor (job.title.getD "").data
          (job.location.getD "Bratislava").data).map (fun g => g.p25),
        percentile_50 := (scrapeGlassdoor (job.title.getD "").data
          (job.location.getD "Bratislava").data).map (fun g => g.p50),
        percentile_75 := (scrapeGlassdoor (job.title.getD "").data
          (job.location.getD "Bratislava").data).map (fun g => g.p75),
        data_points :=
          (match scrapeGlassdoor (job.title.getD "").data
            (job.location.getD "Bratislava").data with
           | some _ => 100
           | none => 0),
        sources :=
          (match scrapeGlassdoor (job.title.getD "").data
            (job.location.getD "Bratislava").data with
           | some _ => ["Glassdoor SK"]
           | none => []) ++ ["Profesia SK"] ++
          (match scrapePlaty (job.title.getD "").data with
           | some _ => ["Platy.sk"]
           | none => []) } := by
  have hprof := profesiaEstimate_pos (lowerL (job.title.getD "").data)
  rcases hg : scrapeGlassdoor (job.title.getD "").data (job.location.getD "Bratislava").data
    with _ | g
  · rcases hp : scrapePlaty (job.title.getD "").data with _ | p
    · simp [fuseMarketData, fuseAvgSpec, fuseAvgSpec1, hg, hp, scrapeProfesia, emptyMarketData,
        hprof.ne', numTruthy_some hprof.ne']
    · have hpos := qdiv2_pos (qadd_pos hprof (scrapePlaty_pos hp))
      simp [fuseMarketData, fuseAvgSpec, fuseAvgSpec1, hg, hp, scrapeProfesia, emptyMarketData,
        hprof.ne', numTruthy_some hpos.ne']
  · have hav := (scrapeGlassdoor_pos hg).1
    rcases hp : scrapePlaty (job.title.getD "").data with _ | p
    · have hpos := qdiv2_pos (qadd_pos hav hprof)
      simp [fuseMarketData, fuseAvgSpec, fuseAvgSpec1, hg, hp, scrapeProfesia, emptyMarketData,
        hav.ne', numTruthy_some hpos.ne']
    · have h1 := qdiv2_pos (qadd_pos hav hprof)
      have hpos := qdiv2_pos (qadd_pos h1 (scrapePlaty_pos hp))
      simp [fuseMarketData, fuseAvgSpec, fuseAvgSpec1, hg, hp, scrapeProfesia, emptyMarketData,
        hav.ne', h1.ne', numTruthy_some hpos.ne']

theorem applyFactors_sources (md : MarketData) (loc : List Char) :
    (applySlovakiaMarketFactors md loc).sources = md.sources := rfl

theorem applyFactors_p25 (md : MarketData) (loc : List Char) :
    (applySlovakiaMarketFactors md loc).percentile_25 = md.percentile_25 := rfl

theorem applyFactors_p50 (md : MarketData) (loc : List Char) :
    (applySlovakiaMarketFactors md loc).percentile_50 = md.percentile_50 := rfl

theorem applyFactors_p75 (md : MarketData) (loc : List Char) :
    (applySlovakiaMarketFactors md loc).percentile_75 = md.percentile_75 := rfl

theorem applyFactors_min_of_pos {md : MarketData} {v : ℚ} (loc : List Char)
    (hm : md.min_salary = some v) (hv : v ≠ 0) :
    (applySlovakiaMarketFactors md loc).min_salary =
      some (pyIntQ (qmul v (locationMultiplier (lowerL loc)))) := by
  unfold applySlovakiaMarketFactors
  simp only [hm]
  rw [if_neg hv]

theorem applyFactors_max_of_pos {md : MarketData} {v : ℚ} (loc : List Char)
    (hm : md.max_salary = some v) (hv : v ≠ 0) :
    (applySlovakiaMarketFactors md loc).max_salary =
      some (pyIntQ (qmul v (locationMultiplier (lowerL loc)))) := by
  unfold applySlovakiaMarketFactors
  simp only [hm]
  rw [if_neg hv]

theorem applyFactors_avg_isSome {md : MarketData} {loc : List Char}
    (h : md.average_salary.isSome = true) :
    (applySlovakiaMarketFactors md loc).average_salary.isSome = true := by
  unfold applySlovakiaMarketFactors
  rcases hm : md.average_salary with _ | a
  · rw [hm] at h; simp at h
  · simp only [hm]
    split_ifs <;> simp

/-- C4: whenever all five of min/p25/p50/p75/max are non-null in the
market-data engine's output (location multiplier applied to min/max), they
are ordered min ≤ p25 ≤ p50 ≤ p75 ≤ max. -/
theorem C4_distribution_ordered (job : Job) (a b c d e : ℚ)
    (hmin : (getMarketDataSlovakia job).min_salary = some a)
    (h25 : (getMarketDataSlovakia job).percentile_25 = some b)
    (h50 : (getMarketDataSlovakia job).percentile_50 = some c)
    (h75 : (getMarketDataSlovakia job).percentile_75 = some d)
    (hmax : (getMarketDataSlovakia job).max_salary = some e) :
    a ≤ b ∧ b ≤ c ∧ c ≤ d ∧ d ≤ e := by
  have hc := fuseMarketData_char job
  rcases hg : scrapeGlassdoor (job.title.getD "").data (job.location.getD "Bratislava").data
    with _ | g
  · rw [getMarketDataSlovakia, applyFactors_p25, hc, hg] at h25
    simp at h25
  · have hpos := scrapeGlassdoor_pos hg
    have hb : b = g.p25 := by
      rw [getMarketDataSlovakia, applyFactors_p25, hc, hg] at h25
      exact (Option.some.inj h25).symm
    have hcv : c = g.p50 := by
      rw [getMarketDataSlovakia, applyFactors_p50, hc, hg] at h50
      exact (Option.some.inj h50).symm
    have hd : d = g.p75 := by
      rw [getMarketDataSlovakia, applyFactors_p75, hc, hg] at h75
      exact (Option.some.inj h75).symm
    have hfmin : (fuseMarketData job).min_salary = some g.mn := by rw [hc, hg]; rfl
    have hfmax : (fuseMarketData job).max_salary = some g.mx := by rw [hc, hg]; rfl
    have ha : a = pyIntQ (qmul g.mn
        (locationMultiplier (lowerL (job.location.getD "Bratislava").data))) := by
      rw [getMarketDataSlovakia,
        applyFactors_min_of_pos _ hfmin hpos.2.1.ne'] at hmin
      exact (Option.some.inj hmin).symm
    have he : e = pyIntQ (qmul g.mx
        (locationMultiplier (lowerL (job.location.getD "Bratislava").data))) := by
      rw [getMarketDataSlovakia,
        applyFactors_max_of_pos _ hfmax hpos.2.2.ne'] at hmax
      exact (Option.some.inj hmax).symm
    rcases scrapeGlassdoor_cases hg with ⟨hloc, hmem⟩ | ⟨hloc, hmem⟩ | ⟨hloc, hmem⟩
    · rw [multiplier_of_bratislava hloc] at ha he
      subst ha hb hcv hd he
      fin_cases hmem <;> exact ⟨by decide, by decide, by decide, by decide⟩
    · rw [multiplier_of_kosice hloc] at ha he
      subst ha hb hcv hd he
      fin_cases hmem <;> exact ⟨by decide, by decide, by decide, by decide⟩
    · rw [multiplier_of_remote hloc] at ha he
      subst ha hb hcv hd he
      fin_cases hmem <;> exact ⟨by decide, by decide, by decide, by decide⟩

/-- Witness for C4: the "python developer" in Bratislava yields min 2400,
p25 2800, p50 3200, p75 3800, max 4800, which are ordered. -/
theorem C4_witness :
    (2400 : ℚ) ≤ 2800 ∧ (2800 : ℚ) ≤ 3200 ∧ (3200 : ℚ) ≤ 3800 ∧ (3800 : ℚ) ≤ 4800 :=
  C4_distribution_ordered
    { title := some "python developer", location := some "bratislava" }
    2400 2800 3200 3800 4800 (by decide) (by decide) (by decide) (by decide) (by decide)

/-- C5: with Glassdoor and Platy both contributing (Profesia always does),
the fused average before location adjustment is the order-dependent running
pairwise mean ((a + b)/2 + c)/2 of the three averages in evaluation order,
and min/max/percentiles are taken from Glassdoor alone, never merged. -/
theorem C5_running_pairwise_mean (job : Job) (g : GdEntry) (p : ℚ × ℕ)
    (hg : scrapeGlassdoor (job.title.getD "").data (job.location.getD "Bratislava").data = some g)
    (hp : scrapePlaty (job.title.getD "").data = some p) :
    (fuseMarketData job).average_salary =
      some (((g.av + profesiaEstimate (lowerL (job.title.getD "").data)) / 2 + p.1) / 2) ∧
    (fuseMarketData job).min_salary = some g.mn ∧
    (fuseMarketData job).max_salary = some g.mx ∧
    (fuseMarketData job).percentile_25 = some g.p25 ∧
    (fuseMarketData job).percentile_50 = some g.p50 ∧
    (fuseMarketData job).percentile_75 = some g.p75 := by
  have hc := fuseMarketData_char job
  rw [hc]
  refine ⟨?_, by rw [hg]; rfl, by rw [hg]; rfl, by rw [hg]; rfl, by rw [hg]; rfl,
    by rw [hg]; rfl⟩
  simp [fuseAvgSpec, fuseAvgSpec1, hg, hp, qdiv_eq, qadd_eq]

/-- Witness for C5 at the "python developer"/Bratislava job: Glassdoor
contributes (avg 3200, min 2400, max 4800, p25 2800, p50 3200, p75 3800)
and Platy contributes 3000, so the fused average is the running pairwise
mean and the distribution fields are Glassdoor's. -/
theorem C5_witness :
    (fuseMarketData { title := some "python developer", location := some "bratislava" }).average_salary =
      some (((3200 + profesiaEstimate (lowerL "python developer".data)) / 2 + 3000) / 2) ∧
    (fuseMarketData { title := some "python developer", location := some "bratislava" }).min_salary = some 2400 ∧
    (fuseMarketData { title := some "python developer", location := some "bratislava" }).max_salary = some 4800 ∧
    (fuseMarketData { title := some "python developer", location := some "bratislava" }).percentile_25 = some 2800 ∧
    (fuseMarketData { title := some "python developer", location := some "bratislava" }).percentile_50 = some 3200 ∧
    (fuseMarketData { title := some "python developer", location := some "bratislava" }).percentile_75 = some 3800 :=
  C5_running_pairwise_mean
    { title := some "python developer", location := some "bratislava" }
    ⟨3200, 2400, 4800, 2800, 3200, 3800⟩ (3000, 30) (by decide) (by decide)

/-- C8: whenever the market-data engine produces a non-null average, the
sources list is nonempty (indeed "Profesia SK" always contributes). -/
theorem C8_sources_nonempty (job : Job)
    (_h : (getMarketDataSlovakia job).average_salary.isSome = true) :
    (getMarketDataSlovakia job).sources ≠ [] := by
  have hc := fuseMarketData_char job
  have hm : "Profesia SK" ∈ (getMarketDataSlovakia job).sources := by
    rw [getMarketDataSlovakia, applyFactors_sources, hc]
    simp
  exact List.ne_nil_of_mem hm

/-- Witness for C8 at the empty job (the empty title matches the first
Glassdoor key by substring containment, and Profesia always contributes). -/
theorem C8_witness : (getMarketDataSlovakia {}).sources ≠ [] :=
  C8_sources_nonempty {} (by decide)

/-- C10: the Profesia estimate is always at least 2800, the fused average
is therefore always non-null, "Profesia SK" is always among the sources,
and the "Job Posting" pseudo-source is unreachable: an all-null
distribution with an empty source list is never produced. -/
theorem C10_profesia_always (job : Job) :
    2800 ≤ profesiaEstimate (lowerL (job.title.getD "").data) ∧
    (getMarketDataSlovakia job).average_salary.isSome = true ∧
    "Profesia SK" ∈ (getMarketDataSlovakia job).sources ∧
    "Job Posting" ∉ (getMarketDataSlovakia job).sources := by
  have hc := fuseMarketData_char job
  refine ⟨profesiaEstimate_ge _, ?_, ?_, ?_⟩
  · refine applyFactors_avg_isSome ?_
    rw [hc]
    rfl
  · rw [getMarketDataSlovakia, applyFactors_sources, hc]
    simp
  · rw [getMarketDataSlovakia, applyFactors_sources, hc]
    rcases scrapeGlassdoor (job.title.getD "").data (job.location.getD "Bratislava").data
      with _ | g <;>
      rcases scrapePlaty (job.title.getD "").data with _ | p <;> simp

end HC
